import Mathlib

/-!
Verification of the confidential-withdrawal client
(`src/bin/9_withdraw_tokens.rs`) against its specification.

The Rust binary is a single linear sequence:
load token account → unpack the confidential-transfer extension →
derive ElGamal/AE keys from the wallet signer and the associated token
address → generate the withdrawal proof → create the proof context-state
account (transaction 1) → verify the proof into it (transaction 2) →
compute the new decryptable available balance → submit the withdraw
instruction referencing the context-state account (transaction 3).

We embed it as a pure function of an abstract ledger environment `Env`
(RPC responses, rent schedule, blockhashes, transaction send results,
fresh keypair) producing a `RunResult`: an ordered event trace (account
fetches, key derivations, proof generation, transaction submissions with
their results, printed signatures) and the final outcome.

Library behaviour that is not part of this repository (SPL token SDK
proof generation, key derivation, instruction builders) is modelled
from the spec where marked.
-/

namespace WithdrawTokens

/-- A ledger public key, abstracted to a natural number. -/
structure Pubkey where
  key : Nat
deriving DecidableEq, Repr

/-- A signing keypair; `secret` determines the public key. -/
structure Keypair where
  secret : Nat
deriving DecidableEq, Repr

/-- The public key of a keypair (deterministic in the secret). -/
def Keypair.pubkey (k : Keypair) : Pubkey :=
  ⟨k.secret⟩

/-- The SPL Token-2022 program id (opaque constant). -/
def spl_token_2022_id : Pubkey := ⟨1001⟩

/-- The ZK token proof program id (opaque constant). -/
def zk_token_proof_program_id : Pubkey := ⟨1002⟩

/-- Modelled from the spec: the associated-token-address derivation
(`get_associated_token_address_with_program_id`) is a pure deterministic
function of owner, mint and token program id; the PDA hash is abstracted
by an injective pairing. -/
def get_associated_token_address_with_program_id
    (owner mint tokenProgram : Pubkey) : Pubkey :=
  ⟨Nat.pair (Nat.pair owner.key mint.key) tokenProgram.key⟩

/-- An ElGamal ciphertext of a 64-bit amount, abstracted as the
encrypting public key together with the hidden value. -/
structure ElGamalCiphertext where
  pubkey : Nat
  value : Nat
deriving DecidableEq, Repr

/-- An ElGamal keypair, determined by its secret scalar. -/
structure ElGamalKeypair where
  sk : Nat
deriving DecidableEq, Repr

/-- The public component of an ElGamal keypair. -/
def ElGamalKeypair.pubkeyOf (k : ElGamalKeypair) : Nat :=
  k.sk

/-- An authenticated-encryption (AE) key for the decryptable balance. -/
structure AeKey where
  key : Nat
deriving DecidableEq, Repr

/-- An AE ciphertext: decryptable only under the key that produced it. -/
structure AeCiphertext where
  key : Nat
  value : Nat
deriving DecidableEq, Repr

/-- AE encryption of an amount under a key. -/
def AeKey.encrypt (k : AeKey) (v : Nat) : AeCiphertext :=
  ⟨k.key, v⟩

/-- AE decryption: succeeds exactly under the encrypting key. -/
def AeCiphertext.decrypt (c : AeCiphertext) (k : AeKey) : Option Nat :=
  if c.key = k.key then some c.value else none

/-- Modelled from the spec: `ElGamalKeypair::new_from_signer` —
deterministic derivation of the encryption keypair solely from the
holder's signing secret and a seed (the token account address bytes);
no other state is consulted. -/
def ElGamalKeypair.new_from_signer (signer : Keypair) (seed : Nat) :
    Option ElGamalKeypair :=
  some ⟨Nat.pair signer.secret seed⟩

/-- Modelled from the spec: `AeKey::new_from_signer` — deterministic
derivation of the symmetric key solely from the holder's signing secret
and a seed (the token account address bytes). -/
def AeKey.new_from_signer (signer : Keypair) (seed : Nat) :
    Option AeKey :=
  some ⟨Nat.pair signer.secret seed + 1⟩

/-- The confidential-transfer extension record of a token account
(the fields the withdrawal flow reads, plus the pending balance). -/
structure ConfidentialTransferAccount where
  available_balance : ElGamalCiphertext
  pending_balance : ElGamalCiphertext
  decryptable_available_balance : AeCiphertext
deriving DecidableEq, Repr

/-- A token account as returned by `get_account_info`; the
confidential-transfer extension may be absent. -/
structure TokenAccount where
  confidentialTransfer : Option ConfidentialTransferAccount
deriving DecidableEq, Repr

/-- `BaseStateWithExtensions::get_extension::<ConfidentialTransferAccount>`:
returns the extension data, or an error if the extension is absent. -/
def TokenAccount.get_extension (a : TokenAccount) :
    Option ConfidentialTransferAccount :=
  a.confidentialTransfer

/-- `WithdrawAccountInfo`: the snapshot of the extension fields needed
to build a `Withdraw` instruction, captured at construction time. -/
structure WithdrawAccountInfo where
  available_balance : ElGamalCiphertext
  decryptable_available_balance : AeCiphertext
deriving DecidableEq, Repr

/-- `WithdrawAccountInfo::new`: copies the two balance fields out of the
extension record. -/
def WithdrawAccountInfo.new (account : ConfidentialTransferAccount) :
    WithdrawAccountInfo :=
  ⟨account.available_balance, account.decryptable_available_balance⟩

/-- Errors surfaced by the run (the spec's error taxonomy restricted to
what this binary can produce). -/
inductive RunError where
  | accountNotFound
  | extensionNotPresent
  | keyDerivation
  | accountDecryption
  | insufficientBalance
  | instructionBuild
  | sendFailed (stage : Nat) (reason : Nat)
deriving DecidableEq, Repr

/-- Modelled from the spec: the withdrawal proof bundle (`WithdrawData`),
recording the transcript it was generated against: the encryption
public key, the amount, the post-withdrawal balance, and the pre-state
ciphertext. -/
structure ProofData where
  pubkey : Nat
  amount : Nat
  finalBalance : Nat
  preState : ElGamalCiphertext
deriving DecidableEq, Repr

/-- Modelled from the spec: `WithdrawAccountInfo::generate_proof_data` —
decrypts the decryptable balance snapshot with the symmetric key and
fails with `InsufficientBalance` when the amount exceeds the decrypted
available balance; on success the bundle is a pure function of the
snapshot, the amount and the derived keys. -/
def WithdrawAccountInfo.generate_proof_data (info : WithdrawAccountInfo)
    (withdraw_amount : Nat) (elgamal_keypair : ElGamalKeypair)
    (aes_key : AeKey) : Except RunError ProofData :=
  match info.decryptable_available_balance.decrypt aes_key with
  | none => .error .accountDecryption
  | some balance =>
      if withdraw_amount ≤ balance then
        .ok ⟨elgamal_keypair.pubkeyOf, withdraw_amount,
             balance - withdraw_amount, info.available_balance⟩
      else
        .error .insufficientBalance

/-- Modelled from the spec:
`WithdrawAccountInfo::new_decryptable_available_balance` — re-encrypts
`decrypted_balance - amount` under the symmetric key, from the same
snapshot; fails when the amount exceeds the decrypted balance. -/
def WithdrawAccountInfo.new_decryptable_available_balance
    (info : WithdrawAccountInfo) (withdraw_amount : Nat)
    (aes_key : AeKey) : Except RunError AeCiphertext :=
  match info.decryptable_available_balance.decrypt aes_key with
  | none => .error .accountDecryption
  | some balance =>
      if withdraw_amount ≤ balance then
        .ok (aes_key.encrypt (balance - withdraw_amount))
      else
        .error .insufficientBalance

/-- `ProofLocation`: where the withdraw instruction finds its verified
proof — a context-state account address, or an inline instruction
offset. -/
inductive ProofLocation where
  | contextStateAccount (addr : Pubkey)
  | instructionOffset (offset : Int) (proof : ProofData)
deriving DecidableEq, Repr

/-- The instructions this client can place in a transaction. -/
inductive Instr where
  | createAccount (funder newAccount : Pubkey) (lamports : Nat)
      (space : Nat) (owner : Pubkey)
  | verifyWithdraw (contextState : Option (Pubkey × Pubkey))
      (proof : ProofData)
  | withdrawIx (tokenAccount mint : Pubkey) (amount decimals : Nat)
      (newDecryptableAvailableBalance : AeCiphertext)
      (authority : Pubkey) (proofLocation : ProofLocation)
deriving DecidableEq, Repr

/-- A signed transaction: instruction list, fee payer, signers, recent
blockhash. -/
structure Transaction where
  instructions : List Instr
  payer : Pubkey
  signers : List Pubkey
  recentBlockhash : Nat
deriving DecidableEq, Repr

/-- Byte length of a ledger public key. -/
def pubkeyLen : Nat := 32

/-- Byte length of the packed proof-type tag. -/
def podProofTypeLen : Nat := 1

/-- Byte length of a packed ElGamal public key. -/
def elgamalPubkeyLen : Nat := 32

/-- Byte length of a packed ElGamal ciphertext. -/
def elgamalCiphertextLen : Nat := 64

/-- Modelled from the spec: serialized size of `WithdrawProofContext`
(the verifier's parsed form: an ElGamal public key and the final
ciphertext). -/
def withdrawProofContextLen : Nat :=
  elgamalPubkeyLen + elgamalCiphertextLen

/-- Modelled from the spec:
`size_of::<ProofContextState<WithdrawProofContext>>()` — authority key,
proof-type tag, then the proof context. -/
def proofContextStateSize : Nat :=
  pubkeyLen + podProofTypeLen + withdrawProofContextLen

/-- Byte length of the ciphertext-commitment equality proof. -/
def equalityProofLen : Nat := 192

/-- Byte length of the 64-bit range proof. -/
def rangeProofLen : Nat := 672

/-- Modelled from the spec: serialized size of the raw withdrawal proof
bundle (`WithdrawData`): the proof context plus the equality and range
proofs. This is NOT the staging-account size. -/
def withdrawDataLen : Nat :=
  withdrawProofContextLen + equalityProofLen + rangeProofLen

/-- Modelled from the spec:
`spl_token_2022::extension::confidential_transfer::instruction::withdraw`
— builds the withdraw instruction; with a context-state-account proof
location it returns exactly one instruction, with an inline offset it
appends the proof-verification instruction. -/
def withdraw (token_program_id token_account mint : Pubkey)
    (amount decimals : Nat)
    (new_decryptable_available_balance : AeCiphertext)
    (authority : Pubkey) (multisig_signers : List Pubkey)
    (proof_location : ProofLocation) : Except RunError (List Instr) :=
  match proof_location with
  | .contextStateAccount _ =>
      .ok [Instr.withdrawIx token_account mint amount decimals
             new_decryptable_available_balance authority proof_location]
  | .instructionOffset _ p =>
      .ok [Instr.withdrawIx token_account mint amount decimals
             new_decryptable_available_balance authority proof_location,
           Instr.verifyWithdraw none p]

instance {ε α : Type} [DecidableEq ε] [DecidableEq α] :
    DecidableEq (Except ε α) := fun
  | .error e, .error f =>
      if h : e = f then .isTrue (by rw [h])
      else .isFalse (fun hc => h (by cases hc; rfl))
  | .ok a, .ok b =>
      if h : a = b then .isTrue (by rw [h])
      else .isFalse (fun hc => h (by cases hc; rfl))
  | .error _, .ok _ => .isFalse (fun hc => Except.noConfusion hc)
  | .ok _, .error _ => .isFalse (fun hc => Except.noConfusion hc)

/-- Observable events of one run, in order: RPC account fetches, key
derivations, proof generation, transaction submissions (paired with the
`send_and_confirm` result: error reason or confirmed signature), and
printed transaction signatures. -/
inductive Event where
  | fetchAccount (addr : Pubkey)
  | deriveKey
  | proofGen (result : Except RunError ProofData)
  | submit (tx : Transaction) (result : Except Nat Nat)
  | printSig (sig : Nat)
deriving DecidableEq, Repr

/-- The abstract ledger/RPC environment the binary runs against. -/
structure Env where
  getAccountInfo : Pubkey → Option TokenAccount
  rent : Nat → Nat
  blockhash : Nat → Nat
  send : Nat → Transaction → Except Nat Nat
  freshKeypair : Keypair

/-- Result of the run: the ordered event trace and the outcome of
`main`. -/
structure RunResult where
  trace : List Event
  outcome : Except RunError Unit
deriving DecidableEq, Repr

/-- The body of `main` in `9_withdraw_tokens.rs`, with the withdrawal
amount as a parameter (the binary fixes it to `20_00`). Mirrors the
source line by line: every fallible step propagates its error and stops
the run, every RPC interaction is recorded in the trace. -/
def runWith (withdraw_amount : Nat) (wallet_1 mint : Keypair)
    (env : Env) : RunResult :=
  let decimals : Nat := 2
  let sender_associated_token_address :=
    get_associated_token_address_with_program_id wallet_1.pubkey
      mint.pubkey spl_token_2022_id
  let tr0 := [Event.fetchAccount sender_associated_token_address]
  match env.getAccountInfo sender_associated_token_address with
  | none => ⟨tr0, .error .accountNotFound⟩
  | some token_account =>
  match token_account.get_extension with
  | none => ⟨tr0, .error .extensionNotPresent⟩
  | some extension_data =>
  let withdraw_account_info := WithdrawAccountInfo.new extension_data
  let tr1 := tr0 ++ [Event.deriveKey]
  match ElGamalKeypair.new_from_signer wallet_1
      sender_associated_token_address.key with
  | none => ⟨tr1, .error .keyDerivation⟩
  | some elgamal_keypair =>
  let tr2 := tr1 ++ [Event.deriveKey]
  match AeKey.new_from_signer wallet_1
      sender_associated_token_address.key with
  | none => ⟨tr2, .error .keyDerivation⟩
  | some aes_key =>
  let proof_result := withdraw_account_info.generate_proof_data
    withdraw_amount elgamal_keypair aes_key
  let tr3 := tr2 ++ [Event.proofGen proof_result]
  match proof_result with
  | .error e => ⟨tr3, .error e⟩
  | .ok proof_data =>
  let withdraw_proof_context_state_account := env.freshKeypair
  let withdraw_proof_pubkey := withdraw_proof_context_state_account.pubkey
  let context_state_authority := wallet_1
  let space := proofContextStateSize
  let rent := env.rent space
  let create_withdraw_proof_account :=
    Instr.createAccount wallet_1.pubkey withdraw_proof_pubkey rent space
      zk_token_proof_program_id
  let tx1 : Transaction :=
    ⟨[create_withdraw_proof_account], wallet_1.pubkey,
     [wallet_1.pubkey, withdraw_proof_pubkey], env.blockhash 0⟩
  let send1 := env.send 0 tx1
  let tr4 := tr3 ++ [Event.submit tx1 send1]
  match send1 with
  | .error e => ⟨tr4, .error (.sendFailed 0 e)⟩
  | .ok sig1 =>
  let tr5 := tr4 ++ [Event.printSig sig1]
  let verify_withdraw_proof_instruction :=
    Instr.verifyWithdraw
      (some (withdraw_proof_pubkey, context_state_authority.pubkey))
      proof_data
  let tx2 : Transaction :=
    ⟨[verify_withdraw_proof_instruction], wallet_1.pubkey,
     [wallet_1.pubkey], env.blockhash 1⟩
  let send2 := env.send 1 tx2
  let tr6 := tr5 ++ [Event.submit tx2 send2]
  match send2 with
  | .error e => ⟨tr6, .error (.sendFailed 1 e)⟩
  | .ok sig2 =>
  let tr7 := tr6 ++ [Event.printSig sig2]
  match withdraw_account_info.new_decryptable_available_balance
      withdraw_amount aes_key with
  | .error e => ⟨tr7, .error e⟩
  | .ok new_decryptable_available_balance =>
  let proof_location := ProofLocation.contextStateAccount
    withdraw_proof_pubkey
  match withdraw spl_token_2022_id sender_associated_token_address
      mint.pubkey withdraw_amount decimals
      new_decryptable_available_balance wallet_1.pubkey
      [wallet_1.pubkey] proof_location with
  | .error e => ⟨tr7, .error e⟩
  | .ok withdraw_instruction =>
  let tx3 : Transaction :=
    ⟨withdraw_instruction, wallet_1.pubkey, [wallet_1.pubkey],
     env.blockhash 2⟩
  let send3 := env.send 2 tx3
  let tr8 := tr7 ++ [Event.submit tx3 send3]
  match send3 with
  | .error e => ⟨tr8, .error (.sendFailed 2 e)⟩
  | .ok sig3 => ⟨tr8 ++ [Event.printSig sig3], .ok ()⟩

/-- The binary's entry point: withdrawal amount hard-coded to `20_00`
raw units. -/
def run (wallet_1 mint : Keypair) (env : Env) : RunResult :=
  runWith 2000 wallet_1 mint env

/-! ## Trace observations -/

/-- The transactions submitted in a trace, in order, each paired with
its send-and-confirm result. -/
def submits (tr : List Event) : List (Transaction × Except Nat Nat) :=
  tr.filterMap fun e =>
    match e with
    | .submit tx r => some (tx, r)
    | _ => none

/-- The fetched account addresses in a trace, in order. -/
def fetches (tr : List Event) : List Pubkey :=
  tr.filterMap fun e =>
    match e with
    | .fetchAccount a => some a
    | _ => none

/-- The transaction signatures printed in a trace, in order. -/
def printed (tr : List Event) : List Nat :=
  tr.filterMap fun e =>
    match e with
    | .printSig s => some s
    | _ => none

/-- The signatures of the confirmed submissions in a trace, in order. -/
def confirmedSigs (tr : List Event) : List Nat :=
  tr.filterMap fun e =>
    match e with
    | .submit _ (.ok s) => some s
    | _ => none

/-- Is the instruction the staging-account allocation
(`create_account`)? -/
def Instr.isAlloc : Instr → Bool
  | .createAccount _ _ _ _ _ => true
  | _ => false

/-- Is the instruction the proof-verification (`VerifyWithdraw`)
instruction? -/
def Instr.isVerify : Instr → Bool
  | .verifyWithdraw _ _ => true
  | _ => false

/-- Is the instruction the `Withdraw` instruction? -/
def Instr.isWithdraw : Instr → Bool
  | .withdrawIx _ _ _ _ _ _ _ => true
  | _ => false

/-- A transaction consisting of exactly one allocation instruction. -/
def Transaction.isAllocOnly (t : Transaction) : Bool :=
  match t.instructions with
  | [i] => i.isAlloc
  | _ => false

/-- A transaction consisting of exactly one proof-verification
instruction. -/
def Transaction.isVerifyOnly (t : Transaction) : Bool :=
  match t.instructions with
  | [i] => i.isVerify
  | _ => false

/-- A transaction consisting of exactly one withdraw instruction. -/
def Transaction.isWithdrawOnly (t : Transaction) : Bool :=
  match t.instructions with
  | [i] => i.isWithdraw
  | _ => false

/-- The submission list follows the three-stage protocol order:
allocation first, then verification, then withdrawal, never more than
three transactions and never a stage out of place or two stages merged
into one transaction. -/
def stagedShape : List (Transaction × Except Nat Nat) → Bool
  | [] => true
  | [a] => a.1.isAllocOnly
  | [a, b] => a.1.isAllocOnly && b.1.isVerifyOnly
  | [a, b, c] => a.1.isAllocOnly && b.1.isVerifyOnly &&
      c.1.isWithdrawOnly
  | _ => false

/-- Every submission other than the last was confirmed: a transaction
is only ever submitted after the previous one's confirmation. -/
def seqConfirmed : List (Transaction × Except Nat Nat) → Bool
  | [] => true
  | [_] => true
  | (_, .ok _) :: b :: rest => seqConfirmed (b :: rest)
  | (_, .error _) :: _ :: _ => false

/-- No transaction is submitted before a successful proof generation
appears in the trace. -/
def noSubmitBeforeProofGen : List Event → Bool
  | [] => true
  | .submit _ _ :: _ => false
  | .proofGen (.ok _) :: _ => true
  | _ :: rest => noSubmitBeforeProofGen rest

/-- Does the trace contain a submitted transaction carrying a withdraw
instruction? -/
def hasWithdrawSubmit (tr : List Event) : Bool :=
  tr.any fun e =>
    match e with
    | .submit tx _ => tx.instructions.any Instr.isWithdraw
    | _ => false

/-- After a confirmed submission of a withdraw transaction, the only
remaining event is printing its signature: nothing further is submitted
(in particular the staging account is never closed or reclaimed). -/
def afterWithdrawConfirmed : List Event → Bool
  | [] => true
  | .submit tx (.ok s) :: rest =>
      if tx.instructions.any Instr.isWithdraw then
        decide (rest = [Event.printSig s])
      else afterWithdrawConfirmed rest
  | _ :: rest => afterWithdrawConfirmed rest

/-- The run's three submissions reference one and the same
freshly-generated staging address: the allocation creates it, the
verification (confirmed) targets it, and the withdraw instruction's
proof-location handle names it. -/
def handleMatches (fresh : Pubkey) :
    List (Transaction × Except Nat Nat) → Bool
  | [(⟨[.createAccount _ newAccount _ _ _], _, _, _⟩, _),
     (⟨[.verifyWithdraw (some (ctx, _)) _], _, _, _⟩, .ok _),
     (⟨[.withdrawIx _ _ _ _ _ _
          (.contextStateAccount handle)], _, _, _⟩, _)] =>
      decide (newAccount = fresh) && decide (ctx = fresh) &&
        decide (handle = fresh)
  | _ => false

/-- The second and third submissions carry exactly the proof bundle and
the updated decryptable balance computed from the single loaded
snapshot, with the same withdrawal amount. -/
def snapshotCarried (amt : Nat) (p : ProofData) (b : AeCiphertext) :
    List (Transaction × Except Nat Nat) → Bool
  | [_, (⟨[.verifyWithdraw _ p'], _, _, _⟩, _),
     (⟨[.withdrawIx _ _ a _ b' _ _], _, _, _⟩, _)] =>
      decide (p' = p) && decide (b' = b) && decide (a = amt)
  | _ => false

/-- The proof bundle carried by a verification instruction, if any. -/
def Instr.verifyProof : Instr → Option ProofData
  | .verifyWithdraw _ p => some p
  | _ => none

/-- The new decryptable-balance ciphertext carried by a withdraw
instruction, if any. -/
def Instr.withdrawCiphertext : Instr → Option AeCiphertext
  | .withdrawIx _ _ _ _ b _ _ => some b
  | _ => none

/-- The proof bundle carried by the first verification instruction
submitted in a trace, if any. -/
def verifyProofOf (tr : List Event) : Option ProofData :=
  tr.findSome? fun e =>
    match e with
    | .submit tx _ => tx.instructions.findSome? Instr.verifyProof
    | _ => none

/-- The new decryptable-balance ciphertext carried by the first
withdraw instruction submitted in a trace, if any. -/
def withdrawCiphertextOf (tr : List Event) : Option AeCiphertext :=
  tr.findSome? fun e =>
    match e with
    | .submit tx _ => tx.instructions.findSome? Instr.withdrawCiphertext
    | _ => none

/-- The sender's associated token address for a wallet/mint pair, as
computed at the top of `main`. -/
def senderAta (wallet_1 mint : Keypair) : Pubkey :=
  get_associated_token_address_with_program_id wallet_1.pubkey
    mint.pubkey spl_token_2022_id

/-! ## Concrete fixtures (used by the witness theorems) -/

/-- A concrete wallet keypair. -/
def wWallet : Keypair := ⟨7⟩

/-- A concrete mint keypair. -/
def wMint : Keypair := ⟨9⟩

/-- The associated token address of the fixture wallet. -/
def wAta : Pubkey := senderAta wWallet wMint

/-- The AE key the fixture wallet derives for its token account. -/
def wAe : AeKey := ⟨Nat.pair wWallet.secret wAta.key + 1⟩

/-- A confidential-transfer extension with available balance 10000,
decryptable under the fixture wallet's derived AE key. -/
def wExt : ConfidentialTransferAccount :=
  ⟨⟨3, 10000⟩, ⟨3, 0⟩, ⟨wAe.key, 10000⟩⟩

/-- An environment in which every step succeeds. -/
def wEnvOk : Env where
  getAccountInfo := fun a => if a = wAta then some ⟨some wExt⟩ else none
  rent := fun s => 2 * s
  blockhash := fun i => 100 + i
  send := fun i _ => .ok (500 + i)
  freshKeypair := ⟨42⟩

/-- Like `wEnvOk` but the second submission (proof verification) is
rejected by the ledger with reason 77. -/
def wEnvVerifyFail : Env :=
  { wEnvOk with send := fun i _ =>
      if i = 0 then .ok 500 else .error 77 }

/-- Like `wEnvOk` but the token account lacks the
confidential-transfer extension. -/
def wEnvNoExt : Env :=
  { wEnvOk with getAccountInfo := fun a =>
      if a = wAta then some ⟨none⟩ else none }

/-- A second all-success environment with a different balance, rent
schedule, blockhashes, signatures, and staging keypair. -/
def wEnvAlt : Env where
  getAccountInfo := fun a =>
    if a = wAta then some ⟨some ⟨⟨4, 5000⟩, ⟨4, 1⟩, ⟨wAe.key, 5000⟩⟩⟩
    else none
  rent := fun s => 3 * s + 1
  blockhash := fun i => 900 + i
  send := fun i _ => .ok (800 + i)
  freshKeypair := ⟨55⟩

/-- A placeholder transaction used as a lookup default. -/
def dTx : Transaction := ⟨[], ⟨0⟩, [], 0⟩

/-- The first (allocation) transaction of the fixture success run. -/
def wTx1 : Transaction :=
  ((submits (runWith 2000 wWallet wMint wEnvOk).trace).getD 0
    (dTx, .ok 0)).1

/-- The second (verification) transaction of the run in which the
verification submission is rejected. -/
def wTx2fail : Transaction :=
  ((submits (runWith 2000 wWallet wMint wEnvVerifyFail).trace).getD 1
    (dTx, .ok 0)).1

/-- The proof bundle submitted in the fixture success run. -/
def wProof1 : ProofData :=
  (verifyProofOf (runWith 2000 wWallet wMint wEnvOk).trace).getD
    ⟨0, 0, 0, ⟨0, 0⟩⟩

/-- The proof bundle submitted in the alternate success run. -/
def wProof2 : ProofData :=
  (verifyProofOf (runWith 1500 wWallet wMint wEnvAlt).trace).getD
    ⟨0, 0, 0, ⟨0, 0⟩⟩

/-- The decryptable-balance ciphertext submitted in the fixture
success run. -/
def wCt1 : AeCiphertext :=
  (withdrawCiphertextOf (runWith 2000 wWallet wMint wEnvOk).trace).getD
    ⟨0, 0⟩

/-- The decryptable-balance ciphertext submitted in the alternate
success run. -/
def wCt2 : AeCiphertext :=
  (withdrawCiphertextOf (runWith 1500 wWallet wMint wEnvAlt).trace).getD
    ⟨0, 0⟩

end WithdrawTokens

namespace WithdrawTokens

/-- C1: every run of the withdrawal sequence submits its transactions
in the strict staged order — first a transaction containing only the
staging-account allocation instruction, then one containing only the
proof-verification instruction, then one containing the withdrawal
instruction — each submitted only after the previous one is confirmed,
no two stages combined in one transaction, and a successful run
submits exactly three transactions. -/
theorem c1_three_staged_transactions (amt : Nat) (w m : Keypair)
    (env : Env) :
    stagedShape (submits (runWith amt w m env).trace) = true ∧
    seqConfirmed (submits (runWith amt w m env).trace) = true ∧
    ((runWith amt w m env).outcome = .ok () →
      (submits (runWith amt w m env).trace).length = 3) := by
  simp only [runWith]
  repeat' split
  all_goals simp_all [submits, stagedShape, seqConfirmed,
    Transaction.isAllocOnly, Transaction.isVerifyOnly,
    Transaction.isWithdrawOnly, Instr.isAlloc, Instr.isVerify,
    Instr.isWithdraw, withdraw]
  all_goals subst_vars
  all_goals simp

/-- C1 witness: in the concrete all-success environment the run
succeeds and submits exactly three transactions. -/
theorem c1_three_staged_transactions_witness :
    (runWith 2000 wWallet wMint wEnvOk).outcome = .ok () ∧
    (submits (runWith 2000 wWallet wMint wEnvOk).trace).length = 3 :=
  ⟨by decide,
   (c1_three_staged_transactions 2000 wWallet wMint wEnvOk).2.2
     (by decide)⟩

/-- C9: if the loaded token account lacks the confidential-transfer
extension, the run fails with `ExtensionNotPresent` and its whole
trace is the single account fetch — no key derivation, proof
generation or transaction submission ever happens. -/
theorem c9_missing_extension_fails_fast (amt : Nat) (w m : Keypair)
    (env : Env) (acct : TokenAccount)
    (hacct : env.getAccountInfo (senderAta w m) = some acct)
    (hext : acct.get_extension = none) :
    (runWith amt w m env).outcome = .error .extensionNotPresent ∧
    (runWith amt w m env).trace =
      [Event.fetchAccount (senderAta w m)] := by
  simp only [runWith]
  repeat' split
  all_goals simp_all [senderAta]

/-- C9 witness: against an account without the extension the run
fails with `ExtensionNotPresent`. -/
theorem c9_missing_extension_fails_fast_witness :
    wEnvNoExt.getAccountInfo (senderAta wWallet wMint) =
      some ⟨none⟩ ∧
    (⟨none⟩ : TokenAccount).get_extension = none ∧
    (runWith 2000 wWallet wMint wEnvNoExt).outcome =
      .error .extensionNotPresent :=
  ⟨by decide, by decide,
   (c9_missing_extension_fails_fast 2000 wWallet wMint wEnvNoExt
     ⟨none⟩ (by decide) (by decide)).1⟩

/-- C10: the program never closes or reclaims the staging account:
after a confirmed withdrawal transaction the only remaining event is
printing its signature, and no run submits more than three
transactions — on every path the staging account remains on the
ledger. -/
theorem c10_nothing_after_withdrawal (amt : Nat) (w m : Keypair)
    (env : Env) :
    afterWithdrawConfirmed (runWith amt w m env).trace = true ∧
    (submits (runWith amt w m env).trace).length ≤ 3 := by
  simp only [runWith]
  repeat' split
  all_goals simp_all [submits, afterWithdrawConfirmed, withdraw,
    Instr.isWithdraw]
  all_goals subst_vars
  all_goals simp [afterWithdrawConfirmed, Instr.isWithdraw]

end WithdrawTokens

namespace WithdrawTokens

/-- C2: if the proof-verification submission (the second transaction)
fails, the run submits exactly two transactions, the whole withdrawal
fails with that stage's error, and no withdraw instruction is ever
submitted — the allocated staging account is left as-is. -/
theorem c2_verify_failure_stops_run (amt : Nat) (w m : Keypair)
    (env : Env) (t2 : Transaction) (e : Nat)
    (h : (submits (runWith amt w m env).trace)[1]? =
      some (t2, .error e)) :
    (submits (runWith amt w m env).trace).length = 2 ∧
    (runWith amt w m env).outcome = .error (.sendFailed 1 e) ∧
    hasWithdrawSubmit (runWith amt w m env).trace = false := by
  simp only [runWith] at h ⊢
  repeat' split at h
  all_goals repeat' split
  all_goals simp_all [submits, hasWithdrawSubmit, Instr.isWithdraw,
    Instr.isAlloc, Instr.isVerify, withdraw]
  all_goals obtain ⟨rfl, rfl⟩ := h
  all_goals simp [Instr.isWithdraw]

/-- C2 witness: in the environment whose second submission is
rejected with reason 77, the run stops after two transactions and
never submits a withdraw instruction. -/
theorem c2_verify_failure_stops_run_witness :
    (submits (runWith 2000 wWallet wMint wEnvVerifyFail).trace)[1]? =
      some (wTx2fail, .error 77) ∧
    (submits (runWith 2000 wWallet wMint wEnvVerifyFail).trace).length
      = 2 ∧
    hasWithdrawSubmit (runWith 2000 wWallet wMint wEnvVerifyFail).trace
      = false :=
  ⟨by decide,
   (c2_verify_failure_stops_run 2000 wWallet wMint wEnvVerifyFail
      wTx2fail 77 (by decide)).1,
   (c2_verify_failure_stops_run 2000 wWallet wMint wEnvVerifyFail
      wTx2fail 77 (by decide)).2.2⟩

/-- C3: whenever the run submits its third transaction, the withdraw
instruction's proof-location handle names exactly the freshly
generated staging address, that same address was allocated by the
first transaction, and the proof-verification transaction against that
same address was confirmed before the handle was embedded. -/
theorem c3_handle_names_fresh_verified_account (amt : Nat)
    (w m : Keypair) (env : Env)
    (h : 3 ≤ (submits (runWith amt w m env).trace).length) :
    handleMatches env.freshKeypair.pubkey
      (submits (runWith amt w m env).trace) = true := by
  simp only [runWith] at h ⊢
  repeat' split
  all_goals simp_all [submits, withdraw]
  all_goals subst_vars
  all_goals simp [handleMatches]

/-- C3 witness: the concrete all-success run submits three
transactions all referencing the fresh staging address. -/
theorem c3_handle_names_fresh_verified_account_witness :
    3 ≤ (submits (runWith 2000 wWallet wMint wEnvOk).trace).length ∧
    handleMatches wEnvOk.freshKeypair.pubkey
      (submits (runWith 2000 wWallet wMint wEnvOk).trace) = true :=
  ⟨by decide,
   c3_handle_names_fresh_verified_account 2000 wWallet wMint wEnvOk
     (by decide)⟩

/-- C7: the printed receipt always lists exactly the identifiers of
the confirmed transactions in submission order, so a failure report
includes every identifier produced up to the failure point, and a
completed withdrawal reports all three identifiers. -/
theorem c7_receipt_reports_all_ids (amt : Nat) (w m : Keypair)
    (env : Env) :
    printed (runWith amt w m env).trace =
      confirmedSigs (runWith amt w m env).trace ∧
    ((runWith amt w m env).outcome = .ok () →
      (printed (runWith amt w m env).trace).length = 3) := by
  simp only [runWith]
  repeat' split
  all_goals simp_all [printed, confirmedSigs]

/-- C7 witness: the concrete all-success run completes and prints
three transaction identifiers. -/
theorem c7_receipt_reports_all_ids_witness :
    (runWith 2000 wWallet wMint wEnvOk).outcome = .ok () ∧
    (printed (runWith 2000 wWallet wMint wEnvOk).trace).length = 3 :=
  ⟨by decide,
   (c7_receipt_reports_all_ids 2000 wWallet wMint wEnvOk).2
     (by decide)⟩

end WithdrawTokens

namespace WithdrawTokens

/-- C6: the staging account is allocated with space equal to the
serialized size of one verified-proof record (the proof context-state
constant, which differs from the raw proof bundle size) and funded
with exactly the ledger's rent-exemption amount computed from that
size, and the verification instruction names the holder as the
account's close authority. -/
theorem c6_staging_account_sizing (amt : Nat) (w m : Keypair)
    (env : Env) (t1 : Transaction) (r1 : Except Nat Nat)
    (h : (submits (runWith amt w m env).trace)[0]? = some (t1, r1)) :
    t1.instructions =
      [Instr.createAccount w.pubkey env.freshKeypair.pubkey
        (env.rent proofContextStateSize) proofContextStateSize
        zk_token_proof_program_id] ∧
    proofContextStateSize ≠ withdrawDataLen ∧
    (∀ t2 r2, (submits (runWith amt w m env).trace)[1]? =
        some (t2, r2) →
      ∃ p, t2.instructions =
        [Instr.verifyWithdraw
          (some (env.freshKeypair.pubkey, w.pubkey)) p]) := by
  simp only [runWith] at h ⊢
  repeat' split at h
  all_goals repeat' split
  all_goals simp_all [submits, withdraw, proofContextStateSize,
    withdrawDataLen, withdrawProofContextLen, pubkeyLen,
    podProofTypeLen, elgamalPubkeyLen, elgamalCiphertextLen,
    equalityProofLen, rangeProofLen]
  all_goals obtain ⟨rfl, rfl⟩ := h
  all_goals simp

/-- C6 witness: the first transaction of the concrete all-success
run carries exactly the allocation instruction with the context-state
size and its rent-exemption funding. -/
theorem c6_staging_account_sizing_witness :
    (submits (runWith 2000 wWallet wMint wEnvOk).trace)[0]? =
      some (wTx1, .ok 500) ∧
    wTx1.instructions =
      [Instr.createAccount wWallet.pubkey wEnvOk.freshKeypair.pubkey
        (wEnvOk.rent proofContextStateSize) proofContextStateSize
        zk_token_proof_program_id] :=
  ⟨by decide,
   (c6_staging_account_sizing 2000 wWallet wMint wEnvOk wTx1 (.ok 500)
     (by decide)).1⟩

/-- C5: when the withdrawal amount exceeds the decrypted available
balance, the run fails with `InsufficientBalance` and submits zero
transactions; moreover in every run (over any environment) no
transaction is ever submitted before a successful proof generation. -/
theorem c5_insufficient_balance_no_ledger_interaction (amt : Nat)
    (w m : Keypair) (env : Env) (acct : TokenAccount)
    (ext : ConfidentialTransferAccount) (bal : Nat)
    (hacct : env.getAccountInfo (senderAta w m) = some acct)
    (hext : acct.get_extension = some ext)
    (hdec : ext.decryptable_available_balance.decrypt
      ⟨Nat.pair w.secret (senderAta w m).key + 1⟩ = some bal)
    (hlt : bal < amt) :
    (runWith amt w m env).outcome = .error .insufficientBalance ∧
    submits (runWith amt w m env).trace = [] ∧
    (∀ env2 : Env,
      noSubmitBeforeProofGen (runWith amt w m env2).trace = true) := by
  refine ⟨?_, ?_, ?_⟩
  case refine_3 =>
    intro env2
    simp only [runWith]
    repeat' split
    all_goals simp_all [noSubmitBeforeProofGen]
  all_goals
    have hnle : ¬ amt ≤ bal := Nat.not_le.mpr hlt
    simp only [runWith, senderAta] at hacct hdec ⊢
    repeat' split
    all_goals simp_all [submits, senderAta,
      WithdrawAccountInfo.generate_proof_data, WithdrawAccountInfo.new,
      AeKey.new_from_signer, ElGamalKeypair.new_from_signer]
    all_goals rw [if_neg (Nat.not_le.mpr hlt)] at *
    all_goals simp_all

/-- C5 witness: withdrawing raw amount 20000 against balance 10000
fails with `InsufficientBalance` and submits no transaction. -/
theorem c5_insufficient_balance_no_ledger_interaction_witness :
    wEnvOk.getAccountInfo (senderAta wWallet wMint) =
      some ⟨some wExt⟩ ∧
    wExt.decryptable_available_balance.decrypt
      ⟨Nat.pair wWallet.secret (senderAta wWallet wMint).key + 1⟩ =
        some 10000 ∧
    10000 < 20000 ∧
    (runWith 20000 wWallet wMint wEnvOk).outcome =
      .error .insufficientBalance ∧
    submits (runWith 20000 wWallet wMint wEnvOk).trace = [] := by
  have h := c5_insufficient_balance_no_ledger_interaction 20000
    wWallet wMint wEnvOk ⟨some wExt⟩ wExt 10000 (by decide) (by decide)
    (by decide) (by decide)
  exact ⟨by decide, by decide, by decide, h.1, h.2.1⟩

end WithdrawTokens

namespace WithdrawTokens

/-- The proof bundle returned by a successful `generate_proof_data`
carries the public key of the ElGamal keypair it was called with. -/
theorem generate_proof_data_pubkey (info : WithdrawAccountInfo)
    (amount : Nat) (ek : ElGamalKeypair) (ak : AeKey) (p : ProofData)
    (h : info.generate_proof_data amount ek ak = .ok p) :
    p.pubkey = ek.pubkeyOf := by
  unfold WithdrawAccountInfo.generate_proof_data at h
  split at h
  · cases h
  · split at h
    · cases h; rfl
    · cases h

/-- The ciphertext returned by a successful
`new_decryptable_available_balance` is encrypted under the AE key it
was called with. -/
theorem new_decryptable_available_balance_key
    (info : WithdrawAccountInfo) (amount : Nat) (ak : AeKey)
    (b : AeCiphertext)
    (h : info.new_decryptable_available_balance amount ak = .ok b) :
    b.key = ak.key := by
  unfold WithdrawAccountInfo.new_decryptable_available_balance at h
  split at h
  · cases h
  · split at h
    · cases h; rfl
    · cases h

/-- Any proof bundle submitted for verification carries the ElGamal
public key derived from the wallet secret and the sender token account
address alone. -/
theorem verifyProofOf_pubkey (amt : Nat) (w m : Keypair) (env : Env)
    (p : ProofData)
    (h : verifyProofOf (runWith amt w m env).trace = some p) :
    p.pubkey = Nat.pair w.secret (senderAta w m).key := by
  simp only [runWith, senderAta] at h ⊢
  repeat' split at h
  all_goals simp_all [verifyProofOf, withdraw, Instr.verifyProof,
    ElGamalKeypair.new_from_signer, List.findSome?_cons]
  all_goals subst_vars
  all_goals exact generate_proof_data_pubkey _ _ _ _ _ (by assumption)

/-- Any new decryptable balance submitted in a withdraw instruction is
encrypted under the AE key derived from the wallet secret and the
sender token account address alone. -/
theorem withdrawCiphertextOf_key (amt : Nat) (w m : Keypair)
    (env : Env) (b : AeCiphertext)
    (h : withdrawCiphertextOf (runWith amt w m env).trace = some b) :
    b.key = Nat.pair w.secret (senderAta w m).key + 1 := by
  simp only [runWith, senderAta] at h ⊢
  repeat' split at h
  all_goals simp_all [withdrawCiphertextOf, withdraw,
    Instr.withdrawCiphertext, AeKey.new_from_signer,
    List.findSome?_cons]
  all_goals subst_vars
  all_goals simp only [List.findSome?_cons, List.findSome?_nil,
    Instr.withdrawCiphertext] at h
  all_goals simp at h
  all_goals subst h
  all_goals exact new_decryptable_available_balance_key _ _ _ _ (by assumption)

/-- C8: key derivation is deterministic in the signing secret and
the token account address alone — any two runs with the same wallet
and mint, over arbitrary different environments and amounts, generate
their proof under the same ElGamal public key and encrypt their
updated decryptable balance under the same symmetric key. -/
theorem c8_deterministic_key_derivation (amt1 amt2 : Nat)
    (w m : Keypair) (env1 env2 : Env) (p1 p2 : ProofData)
    (b1 b2 : AeCiphertext)
    (h1 : verifyProofOf (runWith amt1 w m env1).trace = some p1)
    (h2 : verifyProofOf (runWith amt2 w m env2).trace = some p2)
    (h3 : withdrawCiphertextOf (runWith amt1 w m env1).trace = some b1)
    (h4 : withdrawCiphertextOf (runWith amt2 w m env2).trace = some b2) :
    p1.pubkey = p2.pubkey ∧ b1.key = b2.key := by
  constructor
  · rw [verifyProofOf_pubkey amt1 w m env1 p1 h1,
        verifyProofOf_pubkey amt2 w m env2 p2 h2]
  · rw [withdrawCiphertextOf_key amt1 w m env1 b1 h3,
        withdrawCiphertextOf_key amt2 w m env2 b2 h4]

/-- C8 witness: the two concrete success runs, over different
environments, balances and amounts, use identical derived keys. -/
theorem c8_deterministic_key_derivation_witness :
    verifyProofOf (runWith 2000 wWallet wMint wEnvOk).trace =
      some wProof1 ∧
    verifyProofOf (runWith 1500 wWallet wMint wEnvAlt).trace =
      some wProof2 ∧
    withdrawCiphertextOf (runWith 2000 wWallet wMint wEnvOk).trace =
      some wCt1 ∧
    withdrawCiphertextOf (runWith 1500 wWallet wMint wEnvAlt).trace =
      some wCt2 ∧
    wProof1.pubkey = wProof2.pubkey ∧ wCt1.key = wCt2.key :=
  ⟨by decide, by decide, by decide, by decide,
   c8_deterministic_key_derivation 2000 1500 wWallet wMint wEnvOk
     wEnvAlt wProof1 wProof2 wCt1 wCt2 (by decide) (by decide)
     (by decide) (by decide)⟩

/-- C4: the run fetches the account state exactly once, and whenever
the withdrawal transaction is reached, the proof bundle submitted for
verification and the updated decryptable balance submitted in the
withdraw instruction are both computed from that single loaded
snapshot, with the same withdrawal amount and the same keys derived
from the wallet and the token account address. -/
theorem c4_single_snapshot_consistency (amt : Nat) (w m : Keypair)
    (env : Env) (acct : TokenAccount)
    (ext : ConfidentialTransferAccount)
    (hacct : env.getAccountInfo (senderAta w m) = some acct)
    (hext : acct.get_extension = some ext)
    (h3 : 3 ≤ (submits (runWith amt w m env).trace).length) :
    fetches (runWith amt w m env).trace = [senderAta w m] ∧
    (∃ ek ak p b,
      ElGamalKeypair.new_from_signer w (senderAta w m).key = some ek ∧
      AeKey.new_from_signer w (senderAta w m).key = some ak ∧
      (WithdrawAccountInfo.new ext).generate_proof_data amt ek ak =
        .ok p ∧
      (WithdrawAccountInfo.new ext).new_decryptable_available_balance
        amt ak = .ok b ∧
      snapshotCarried amt p b
        (submits (runWith amt w m env).trace) = true) := by
  simp only [runWith, senderAta] at hacct h3 ⊢
  repeat' split
  all_goals simp_all [submits, fetches, withdraw,
    ElGamalKeypair.new_from_signer, AeKey.new_from_signer]
  all_goals subst_vars
  all_goals simp_all [snapshotCarried]

/-- C4 witness: the concrete all-success run reaches the third
transaction and performed exactly one account fetch. -/
theorem c4_single_snapshot_consistency_witness :
    wEnvOk.getAccountInfo (senderAta wWallet wMint) =
      some ⟨some wExt⟩ ∧
    (⟨some wExt⟩ : TokenAccount).get_extension = some wExt ∧
    3 ≤ (submits (runWith 2000 wWallet wMint wEnvOk).trace).length ∧
    fetches (runWith 2000 wWallet wMint wEnvOk).trace =
      [senderAta wWallet wMint] :=
  ⟨by decide, by decide, by decide,
   (c4_single_snapshot_consistency 2000 wWallet wMint wEnvOk
     ⟨some wExt⟩ wExt (by decide) (by decide) (by decide)).1⟩

end WithdrawTokens
